import Mathlib

/-!
Shallow embedding of two business processes of the repository:

* the round-robin lead-threshold host filter
  (`filterHostsByLeadThreshold` and its two policy helpers), and
* the organization-onboarding finalizer
  (`createOrganizationFromOnboarding` / `createOrganizationWithOwner`)
  together with the seat-cancellation side-effect tail (`cancelAttendeeSeat`).

JavaScript numbers are modelled as rationals (ℚ), nullable values as
`Option`, thrown exceptions as `Except`, and the database / outbound
side effects of the finalizer as an explicit state record.
-/

namespace LeadThreshold

/-- A user as seen by the filter (`BaseUser`): only the `id` field is
inspected by the filter logic, `email` stands for the remaining payload. -/
structure User where
  id : Nat
  email : String
  deriving DecidableEq, Repr

/-- A candidate host (`BaseHost`): `isFixed`, `createdAt`, optional
`priority`, `weight`, `weightAdjustment` and the embedded `user`. -/
structure Host where
  isFixed : Bool
  createdAt : Nat
  priority : Option ℚ
  weight : Option ℚ
  weightAdjustment : Option ℚ
  user : User
  deriving DecidableEq, Repr

/-- Event-type shape consumed by the filter: `id`, `isRRWeightsEnabled`
and the (nullable) team with its nullable `parentId`. -/
structure EventType where
  id : Nat
  isRRWeightsEnabled : Bool
  teamParentId : Option (Option Nat)
  deriving DecidableEq, Repr

/-- Ranking statistics (`PerUserData`) returned by the external
`getOrderedListOfLuckyUsers`. The JavaScript objects keyed by user-id
strings are modelled as one key list (`userIds`, the keys of
`bookingsCount`) plus total functions on keys; per the ranking contract
all four maps share that key set. `weights`, `calibrations` and
`bookingShortfalls` are nullable. -/
structure PerUserData where
  userIds : List Nat
  bookingsCount : Nat → ℚ
  weights : Option (Nat → ℚ)
  calibrations : Option (Nat → ℚ)
  bookingShortfalls : Option (Nat → ℚ)

/-- Variant `WeightedPerUserData`: the same statistics with the three nullable
maps known to be present. -/
structure WeightedPerUserData where
  userIds : List Nat
  bookingsCount : Nat → ℚ
  weights : Nat → ℚ
  calibrations : Nat → ℚ
  bookingShortfalls : Nat → ℚ

/-- Sum of the weights of all hosts (`Object.values(perUserData.weights).reduce((sum, weight) => sum + weight, 0)`). -/
def totalWeight (d : WeightedPerUserData) : ℚ :=
  (d.userIds.map d.weights).sum

/-- Embedding of `filterHostsByLeadThresholdWithWeights`: a host survives
when its negated shortfall does not exceed
`maxLeadThreshold * (weight / totalWeight)`. -/
def filterHostsByLeadThresholdWithWeights (d : WeightedPerUserData) (maxLeadThreshold : ℚ) :
    List Nat :=
  d.userIds.filter fun uid =>
    decide (-(d.bookingShortfalls uid) ≤ maxLeadThreshold * (d.weights uid / totalWeight d))

/-- Minimum of the booking counts (`Math.min(...bookingsArray)`); the
default is irrelevant because the value is only read while iterating a
non-empty key list. -/
def minBookings (d : PerUserData) : ℚ :=
  ((d.userIds.map d.bookingsCount).min?).getD 0

/-- Embedding of `filterHostsByLeadThresholdWithoutWeights`: a host
survives when its booking count is at most `minBookings + maxLeadThreshold`. -/
def filterHostsByLeadThresholdWithoutWeights (d : PerUserData) (maxLeadThreshold : ℚ) :
    List Nat :=
  d.userIds.filter fun uid =>
    decide (d.bookingsCount uid ≤ minBookings d + maxLeadThreshold)

/-- The `availableUsers` element built from one host
(`{ ...host.user, weight: host.weight ?? null, priority: host.priority ?? null }`). -/
structure AvailableUser where
  userId : Nat
  email : String
  weight : Option ℚ
  priority : Option ℚ
  deriving DecidableEq, Repr

/-- Builds one `availableUsers` entry from a host. -/
def toAvailableUser (h : Host) : AvailableUser :=
  { userId := h.user.id, email := h.user.email, weight := h.weight, priority := h.priority }

/-- The external ranking function `getOrderedListOfLuckyUsers`, abstracted
as a parameter: from `availableUsers`, `allRRHosts` and the event type to
`perUserData`. -/
def Ranking : Type :=
  List AvailableUser → List Host → EventType → PerUserData

/-- Failure modes of the filter: the `TypeError` raised by the
`hosts[0].user` spread on an empty host list, and the thrown
`Error("Calibrations, weights, or booking shortfalls are null")`. -/
inductive FilterError where
  | emptyHostsDereference
  | missingRankingFields
  deriving DecidableEq, Repr

/-- Embedding of `filterHostsByLeadThreshold`. A `null` threshold returns
the hosts untouched. Otherwise `availableUsers` is built from
`hosts[0].user` and `hosts.slice(1)` — on an empty list the `hosts[0].user`
access fails (modelled as `FilterError.emptyHostsDereference`) before the
ranking function is consulted. The weighted branch first checks the three
nullable ranking maps, then filters; the unweighted branch filters by
booking counts; finally the surviving user ids select the hosts. -/
def filterHostsByLeadThreshold (ranking : Ranking) (hosts : List Host)
    (maxLeadThreshold : Option ℚ) (eventType : EventType) :
    Except FilterError (List Host) :=
  match maxLeadThreshold with
  | none => .ok hosts
  | some threshold =>
    match hosts with
    | [] => .error .emptyHostsDereference
    | h0 :: rest =>
      let availableUsers := toAvailableUser h0 :: rest.map toAvailableUser
      let perUserData := ranking availableUsers hosts eventType
      let filteredUserIds : Except FilterError (List Nat) :=
        if eventType.isRRWeightsEnabled then
          match perUserData.calibrations, perUserData.weights, perUserData.bookingShortfalls with
          | some calibrations, some weights, some shortfalls =>
            .ok (filterHostsByLeadThresholdWithWeights
              { userIds := perUserData.userIds
                bookingsCount := perUserData.bookingsCount
                weights := weights
                calibrations := calibrations
                bookingShortfalls := shortfalls } threshold)
          | _, _, _ => .error .missingRankingFields
        else
          .ok (filterHostsByLeadThresholdWithoutWeights perUserData threshold)
      filteredUserIds.map fun ids => hosts.filter fun host => ids.contains host.user.id

/-- Two successive invocations of the filter with the same arguments,
returned as a pair (first call, second call). -/
def callFilterTwice (ranking : Ranking) (hosts : List Host) (maxLeadThreshold : Option ℚ)
    (eventType : EventType) :
    Except FilterError (List Host) × Except FilterError (List Host) :=
  (filterHostsByLeadThreshold ranking hosts maxLeadThreshold eventType,
    filterHostsByLeadThreshold ranking hosts maxLeadThreshold eventType)

/-- Concrete weighted ranking data: two hosts of weight 1 each, so with
threshold 6 the allowed lead of each host is 6 * (1/2) = 3; host 1 has booking
shortfall -5, host 2 has booking shortfall -2. -/
def exWeightedData : WeightedPerUserData where
  userIds := [1, 2]
  bookingsCount := fun _ => 0
  weights := fun _ => 1
  calibrations := fun _ => 0
  bookingShortfalls := fun uid => if uid = 1 then -5 else -2

/-- Concrete unweighted ranking data: booking counts A:2, B:5, C:8 for
hosts 1, 2, 3. -/
def exUnweightedData : PerUserData where
  userIds := [1, 2, 3]
  bookingsCount := fun uid => if uid = 1 then 2 else if uid = 2 then 5 else 8
  weights := none
  calibrations := none
  bookingShortfalls := none

end LeadThreshold

namespace LeadThreshold

/-- C2: under the weighted policy, a host in the pool is excluded if and
only if its negated booking shortfall exceeds its allowed lead
`maxLeadThreshold * (weight / totalWeight)`; in particular, with two
weight-1 hosts and threshold 6 (allowed lead 3 each), the host with
shortfall -5 is excluded and the host with shortfall -2 is retained. -/
theorem weighted_policy_excluded_iff :
    (∀ (d : WeightedPerUserData) (t : ℚ), 0 < totalWeight d → ∀ uid ∈ d.userIds,
        (uid ∉ filterHostsByLeadThresholdWithWeights d t ↔
          t * (d.weights uid / totalWeight d) < -(d.bookingShortfalls uid)))
      ∧ filterHostsByLeadThresholdWithWeights exWeightedData 6 = [2] := by
  constructor
  · intro d t _ uid hmem
    simp [filterHostsByLeadThresholdWithWeights, List.mem_filter, hmem, not_le]
  · simp only [filterHostsByLeadThresholdWithWeights, exWeightedData, totalWeight]
    norm_num [List.filter, List.map, List.sum]

/-- Witness for C2 at the concrete weighted data: total weight is
positive, host 1 is in the pool, and the exclusion equivalence holds for
it. -/
theorem weighted_policy_excluded_iff_witness :
    0 < totalWeight exWeightedData ∧ 1 ∈ exWeightedData.userIds ∧
      (1 ∉ filterHostsByLeadThresholdWithWeights exWeightedData 6 ↔
        6 * (exWeightedData.weights 1 / totalWeight exWeightedData) <
          -(exWeightedData.bookingShortfalls 1)) :=
  ⟨by norm_num [totalWeight, exWeightedData],
    by simp [exWeightedData],
    weighted_policy_excluded_iff.1 exWeightedData 6
      (by norm_num [totalWeight, exWeightedData]) 1 (by simp [exWeightedData])⟩

/-- C3: under the unweighted policy a host is retained if and only if it
is in the pool and its bookings count is at most `minBookings +
maxLeadThreshold`; with counts {1:2, 2:5, 3:8} and threshold 3, hosts 1
and 2 are retained and host 3 is excluded. -/
theorem unweighted_policy_retained_iff :
    (∀ (d : PerUserData) (t : ℚ) (uid : Nat),
        uid ∈ filterHostsByLeadThresholdWithoutWeights d t ↔
          uid ∈ d.userIds ∧ d.bookingsCount uid ≤ minBookings d + t)
      ∧ filterHostsByLeadThresholdWithoutWeights exUnweightedData 3 = [1, 2] := by
  constructor
  · intro d t uid
    simp [filterHostsByLeadThresholdWithoutWeights, List.mem_filter]
  · simp only [filterHostsByLeadThresholdWithoutWeights, exUnweightedData, minBookings]
    norm_num [List.filter, List.min?, List.foldl, min_def]

/-- C4: a `null` lead threshold disables the filter — the input host list
is returned unchanged, and the result does not depend on the ranking
function at all. -/
theorem null_threshold_returns_hosts_unchanged :
    ∀ (ranking ranking' : Ranking) (hosts : List Host) (eventType : EventType),
      filterHostsByLeadThreshold ranking hosts none eventType = .ok hosts ∧
        filterHostsByLeadThreshold ranking hosts none eventType =
          filterHostsByLeadThreshold ranking' hosts none eventType :=
  fun _ _ _ _ => ⟨rfl, rfl⟩

/-- C5: with round-robin weights enabled, the filter throws the
missing-ranking-fields error exactly when one of `calibrations`,
`weights`, `bookingShortfalls` is null; with all three present that error
branch is not taken. -/
theorem weighted_missing_fields_error_iff :
    ∀ (ranking : Ranking) (h0 : Host) (rest : List Host) (etId : Nat)
      (tp : Option (Option Nat)) (t : ℚ),
      filterHostsByLeadThreshold ranking (h0 :: rest) (some t) ⟨etId, true, tp⟩ =
          .error .missingRankingFields ↔
        (ranking (toAvailableUser h0 :: rest.map toAvailableUser) (h0 :: rest)
            ⟨etId, true, tp⟩).calibrations = none ∨
        (ranking (toAvailableUser h0 :: rest.map toAvailableUser) (h0 :: rest)
            ⟨etId, true, tp⟩).weights = none ∨
        (ranking (toAvailableUser h0 :: rest.map toAvailableUser) (h0 :: rest)
            ⟨etId, true, tp⟩).bookingShortfalls = none := by
  intro ranking h0 rest etId tp t
  cases hc : (ranking (toAvailableUser h0 :: rest.map toAvailableUser) (h0 :: rest)
      ⟨etId, true, tp⟩).calibrations <;>
    cases hw : (ranking (toAvailableUser h0 :: rest.map toAvailableUser) (h0 :: rest)
        ⟨etId, true, tp⟩).weights <;>
      cases hs : (ranking (toAvailableUser h0 :: rest.map toAvailableUser) (h0 :: rest)
          ⟨etId, true, tp⟩).bookingShortfalls <;>
        simp [filterHostsByLeadThreshold, hc, hw, hs, Except.map]

/-- C9 counterexample: the filter is a pure function of its arguments, so
there is no pair of successive calls with the same hosts, threshold,
event type and ranking data whose second result differs from the first —
refuting the one-shot consumption contract as stated. -/
theorem filter_calls_never_disagree :
    ¬ ∃ (ranking : Ranking) (hosts : List Host) (t : Option ℚ) (eventType : EventType),
        (callFilterTwice ranking hosts t eventType).2 ≠
          (callFilterTwice ranking hosts t eventType).1 :=
  fun ⟨_, _, _, _, hne⟩ => hne rfl

/-- C9 amended: `filterHostsByLeadThreshold` does not consume or
invalidate its `maxLeadThreshold` argument — any two successive calls
with the same hosts, threshold, event type and ranking data have
identical results. -/
theorem filter_repeated_call_identical :
    ∀ (ranking : Ranking) (hosts : List Host) (t : Option ℚ) (eventType : EventType),
      (callFilterTwice ranking hosts t eventType).2 =
        (callFilterTwice ranking hosts t eventType).1 :=
  fun _ _ _ _ => rfl

/-- C10: on the empty host list with a non-null threshold the filter
fails at the `hosts[0].user` dereference before reaching either policy,
and in particular never produces a host list. -/
theorem empty_hosts_dereference_failure :
    ∀ (ranking : Ranking) (t : ℚ) (eventType : EventType),
      filterHostsByLeadThreshold ranking [] (some t) eventType =
          .error .emptyHostsDereference ∧
        ∀ l : List Host,
          filterHostsByLeadThreshold ranking [] (some t) eventType ≠ .ok l :=
  fun _ _ _ => ⟨rfl, fun _ h => Except.noConfusion h⟩

end LeadThreshold

namespace Onboarding

/-- An organization row (a specialization of `Team`): the slug is nullable
because it may be deferred at creation. -/
structure Organization where
  id : Nat
  name : String
  slug : Option String
  deriving DecidableEq, Repr

/-- One entry of the serialized `teams` payload on the onboarding record. -/
structure TeamData where
  id : Nat
  name : String
  isBeingMigrated : Bool
  slug : String
  deriving DecidableEq, Repr

/-- One entry of the serialized `invitedMembers` payload. -/
structure InvitedMember where
  email : String
  name : Option String
  deriving DecidableEq, Repr

/-- Billing period of the purchase. -/
inductive BillingPeriod where
  | monthly
  | annually
  deriving DecidableEq, Repr

/-- The fields of the persisted `OrganizationOnboarding` row read by the
finalizer; the serialized members/teams payloads are carried already
schema-checked. -/
structure OrganizationOnboarding where
  id : Nat
  organizationId : Option Nat
  name : String
  slug : String
  orgOwnerEmail : String
  seats : Option Int
  pricePerSeat : Option ℚ
  billingPeriod : Option BillingPeriod
  invitedMembers : List InvitedMember
  teams : List TeamData
  isPlatform : Bool
  logo : Option String
  bio : Option String
  deriving DecidableEq, Repr

/-- The owner user returned by the external `findUserToBeOrgOwner`. -/
structure OrgOwner where
  id : Nat
  email : String
  username : Option String
  locale : Option String
  deriving DecidableEq, Repr

/-- The `orgData` object assembled by the finalizer and consumed by
`createOrganizationWithOwner`. -/
structure OrganizationData where
  id : Option Nat
  name : String
  slug : String
  isOrganizationConfigured : Bool
  isOrganizationAdminReviewed : Bool
  autoAcceptEmail : String
  seats : Option Int
  pricePerSeat : Option ℚ
  isPlatform : Bool
  logoUrl : Option String
  bio : Option String
  billingPeriod : Option BillingPeriod
  paymentSubscriptionId : String
  deriving DecidableEq, Repr

/-- Observable database and outbound-side-effect state threaded through
the finalizer: the organization table, the `organizationId` column of the
onboarding row being processed, and event logs of the side effects issued
through external collaborators (creation emails, availability seeding,
member invitations, team creation/migration runs, slug backfills). -/
structure DbState where
  orgs : List Organization
  onboardingOrganizationId : Option Nat
  creationEmailsSent : List String
  availabilitySeeded : List Nat
  invitesSent : List (Nat × List String)
  teamOpsRun : List (Nat × List TeamData)
  slugBackfills : List (Nat × String)
  deriving DecidableEq, Repr

/-- Results of the external collaborators that the finalizer consults:
the owner lookup (`findUserToBeOrgOwner`), the `slugConflictType` field
returned by a successful `assertCanCreateOrg`, and the id the ORM assigns
to a newly created organization row. -/
structure Env where
  owner : Option OrgOwner
  slugConflictType : Option String
  freshOrgId : Nat
  deriving DecidableEq, Repr

/-- Embedding of `OrganizationRepository.findById`. -/
def findById (orgs : List Organization) (i : Nat) : Option Organization :=
  orgs.find? fun o => o.id == i

/-- Embedding of `OrganizationRepository.findBySlug`. -/
def findBySlug (orgs : List Organization) (s : String) : Option Organization :=
  orgs.find? fun o => o.slug == some s

/-- The lookup opening `createOrganizationWithOwner`:
`orgData.id ? findById({id: orgData.id}) : findBySlug({slug: orgData.slug})`
(JavaScript truthiness: a null or zero id falls back to the slug lookup). -/
def lookupOrganization (orgs : List Organization) (orgData : OrganizationData) :
    Option Organization :=
  match orgData.id with
  | some i => if i = 0 then findBySlug orgs orgData.slug else findById orgs i
  | none => findBySlug orgs orgData.slug

/-- Embedding of `inviteMembers`: skipped entirely when the invited-member list is
empty, otherwise one privileged bulk invitation is issued. -/
def inviteMembers (st : DbState) (invitedMembers : List InvitedMember)
    (organization : Organization) : DbState :=
  if invitedMembers.length = 0 then st
  else
    { st with
      invitesSent := st.invitesSent ++ [(organization.id, invitedMembers.map (·.email))] }

/-- Embedding of `createOrMoveTeamsToOrganization`: skipped when there are no teams,
otherwise one `createTeamsHandler` run covering creations and moves. -/
def createOrMoveTeamsToOrganization (st : DbState) (teams : List TeamData)
    (organizationId : Nat) : DbState :=
  if teams.length = 0 then st
  else { st with teamOpsRun := st.teamOpsRun ++ [(organizationId, teams)] }

/-- Embedding of `OrganizationRepository.setSlug`: updates the slug of the organization
row and is logged as a backfill event. -/
def setSlug (st : DbState) (organizationId : Nat) (slug : String) : DbState :=
  { st with
    orgs := st.orgs.map fun o =>
      if o.id = organizationId then { o with slug := some slug } else o
    slugBackfills := st.slugBackfills ++ [(organizationId, slug)] }

/-- JavaScript truthiness of the nullable slug: `!organization.slug` holds
for a null slug and for the empty string. -/
def slugFalsy : Option String → Bool
  | none => true
  | some s => s = ""

/-- Domain part of the owner email (`orgOwnerEmail.split("@")[1]`). -/
def emailDomain (email : String) : String :=
  String.mk ((((email.data).dropWhile (· ≠ '@')).drop 1).takeWhile (· ≠ '@'))

/-- The `orgData` literal built inside `createOrganizationFromOnboarding`.
The source hard-codes `isPlatform: false` here even though the onboarding
record carries its own `isPlatform` flag. -/
def orgDataOfOnboarding (ob : OrganizationOnboarding) (paymentSubscriptionId : String) :
    OrganizationData where
  id := ob.organizationId
  name := ob.name
  slug := ob.slug
  isOrganizationConfigured := true
  isOrganizationAdminReviewed := true
  autoAcceptEmail := emailDomain ob.orgOwnerEmail
  seats := ob.seats
  pricePerSeat := ob.pricePerSeat
  isPlatform := false
  logoUrl := ob.logo
  bio := ob.bio
  billingPeriod := ob.billingPeriod
  paymentSubscriptionId := paymentSubscriptionId

/-- Creation path of `createOrganizationWithOwner` (taken when the lookup
misses): defer the slug exactly when `assertCanCreateOrg` reported the
`teamUserIsMemberOfExists` conflict, create the organization row, send the
creation email unless `orgData.isPlatform`, seed the default
availability of the owner, and record the new organization id on the onboarding row. -/
def createNewOrganization (st : DbState) (env : Env) (owner : OrgOwner)
    (orgData : OrganizationData) : Organization × DbState :=
  let canSetSlug := env.slugConflictType ≠ some "teamUserIsMemberOfExists"
  let organization : Organization :=
    { id := env.freshOrgId
      name := orgData.name
      slug := if canSetSlug then some orgData.slug else none }
  let st := { st with orgs := st.orgs ++ [organization] }
  let st :=
    if orgData.isPlatform then st
    else { st with creationEmailsSent := st.creationEmailsSent ++ [owner.email] }
  let st := { st with availabilitySeeded := st.availabilitySeeded ++ [owner.id] }
  let st := { st with onboardingOrganizationId := some organization.id }
  (organization, st)

/-- Dispatch of `createOrganizationWithOwner`: reuse the organization the
lookup found, otherwise create a new one. -/
def createOrganizationWithOwner (st : DbState) (env : Env) (owner : OrgOwner)
    (orgData : OrganizationData) : Organization × DbState :=
  match lookupOrganization st.orgs orgData with
  | some organization => (organization, st)
  | none => createNewOrganization st env owner orgData

/-- The finalizer steps after create-or-reuse: invite the pending
members, create or move the teams, and then — only if the slug of the
organization is still unset (`!organization.slug`) — set it from the onboarding
record. -/
def finalizeAfterCreation (st : DbState) (ob : OrganizationOnboarding)
    (organization : Organization) : DbState :=
  let st := inviteMembers st ob.invitedMembers organization
  let st := createOrMoveTeamsToOrganization st ob.teams organization.id
  if slugFalsy organization.slug then setSlug st organization.id ob.slug else st

/-- Failure modes of the finalizer that are modelled: the owner-not-found
precondition violation. -/
inductive OnboardingError where
  | ownerNotFound (email : String)
  deriving DecidableEq, Repr

/-- Embedding of `createOrganizationFromOnboarding`: resolve the owner
(fatal when missing), set up the domain (external, stateless here),
create or reuse the organization, invite the pending members, create or
move the teams, and finally backfill the organization slug from the
onboarding record when it is still unset. -/
def createOrganizationFromOnboarding (st : DbState) (env : Env)
    (organizationOnboarding : OrganizationOnboarding) (paymentSubscriptionId : String) :
    Except OnboardingError ((Organization × OrgOwner) × DbState) :=
  match env.owner with
  | none => .error (.ownerNotFound organizationOnboarding.orgOwnerEmail)
  | some owner =>
    let (organization, st) := createOrganizationWithOwner st env owner
      (orgDataOfOnboarding organizationOnboarding paymentSubscriptionId)
    .ok ((organization, owner),
      finalizeAfterCreation st organizationOnboarding organization)

end Onboarding

namespace Onboarding

lemma inviteMembers_orgs (st : DbState) (ms : List InvitedMember) (org : Organization) :
    (inviteMembers st ms org).orgs = st.orgs := by
  unfold inviteMembers; split <;> rfl

lemma inviteMembers_emails (st : DbState) (ms : List InvitedMember) (org : Organization) :
    (inviteMembers st ms org).creationEmailsSent = st.creationEmailsSent := by
  unfold inviteMembers; split <;> rfl

lemma inviteMembers_onbId (st : DbState) (ms : List InvitedMember) (org : Organization) :
    (inviteMembers st ms org).onboardingOrganizationId = st.onboardingOrganizationId := by
  unfold inviteMembers; split <;> rfl

lemma inviteMembers_backfills (st : DbState) (ms : List InvitedMember) (org : Organization) :
    (inviteMembers st ms org).slugBackfills = st.slugBackfills := by
  unfold inviteMembers; split <;> rfl

lemma createOrMoveTeams_orgs (st : DbState) (ts : List TeamData) (i : Nat) :
    (createOrMoveTeamsToOrganization st ts i).orgs = st.orgs := by
  unfold createOrMoveTeamsToOrganization; split <;> rfl

lemma createOrMoveTeams_emails (st : DbState) (ts : List TeamData) (i : Nat) :
    (createOrMoveTeamsToOrganization st ts i).creationEmailsSent = st.creationEmailsSent := by
  unfold createOrMoveTeamsToOrganization; split <;> rfl

lemma createOrMoveTeams_onbId (st : DbState) (ts : List TeamData) (i : Nat) :
    (createOrMoveTeamsToOrganization st ts i).onboardingOrganizationId =
      st.onboardingOrganizationId := by
  unfold createOrMoveTeamsToOrganization; split <;> rfl

lemma createOrMoveTeams_backfills (st : DbState) (ts : List TeamData) (i : Nat) :
    (createOrMoveTeamsToOrganization st ts i).slugBackfills = st.slugBackfills := by
  unfold createOrMoveTeamsToOrganization; split <;> rfl

lemma setSlug_orgs_map_id (st : DbState) (i : Nat) (s : String) :
    (setSlug st i s).orgs.map (·.id) = st.orgs.map (·.id) := by
  unfold setSlug
  simp only [List.map_map]
  congr 1
  funext o
  by_cases h : o.id = i <;> simp [h, Function.comp]

lemma setSlug_emails (st : DbState) (i : Nat) (s : String) :
    (setSlug st i s).creationEmailsSent = st.creationEmailsSent := rfl

lemma setSlug_onbId (st : DbState) (i : Nat) (s : String) :
    (setSlug st i s).onboardingOrganizationId = st.onboardingOrganizationId := rfl

lemma setSlug_backfills (st : DbState) (i : Nat) (s : String) :
    (setSlug st i s).slugBackfills = st.slugBackfills ++ [(i, s)] := rfl

lemma finalize_orgs_map_id (st : DbState) (ob : OrganizationOnboarding) (org : Organization) :
    (finalizeAfterCreation st ob org).orgs.map (·.id) = st.orgs.map (·.id) := by
  unfold finalizeAfterCreation
  split <;>
    simp [setSlug_orgs_map_id, createOrMoveTeams_orgs, inviteMembers_orgs]

lemma finalize_emails (st : DbState) (ob : OrganizationOnboarding) (org : Organization) :
    (finalizeAfterCreation st ob org).creationEmailsSent = st.creationEmailsSent := by
  unfold finalizeAfterCreation
  split <;>
    simp [setSlug_emails, createOrMoveTeams_emails, inviteMembers_emails]

lemma finalize_onbId (st : DbState) (ob : OrganizationOnboarding) (org : Organization) :
    (finalizeAfterCreation st ob org).onboardingOrganizationId =
      st.onboardingOrganizationId := by
  unfold finalizeAfterCreation
  split <;>
    simp [setSlug_onbId, createOrMoveTeams_onbId, inviteMembers_onbId]

lemma findById_isSome_of_mem_ids (orgs : List Organization) (i : Nat)
    (h : i ∈ orgs.map (·.id)) : (findById orgs i).isSome := by
  rw [findById, List.find?_isSome]
  simp only [List.mem_map] at h
  obtain ⟨o, ho, hid⟩ := h
  exact ⟨o, ho, by simp [hid]⟩

lemma createNew_fst_id (st : DbState) (env : Env) (owner : OrgOwner)
    (d : OrganizationData) : (createNewOrganization st env owner d).1.id = env.freshOrgId :=
  rfl

lemma createNew_snd_onbId (st : DbState) (env : Env) (owner : OrgOwner)
    (d : OrganizationData) :
    (createNewOrganization st env owner d).2.onboardingOrganizationId =
      some env.freshOrgId :=
  rfl

lemma createNew_snd_orgs_map_id (st : DbState) (env : Env) (owner : OrgOwner)
    (d : OrganizationData) :
    (createNewOrganization st env owner d).2.orgs.map (·.id) =
      st.orgs.map (·.id) ++ [env.freshOrgId] := by
  unfold createNewOrganization
  by_cases h : d.isPlatform = true <;> simp [h]

lemma createNew_snd_backfills (st : DbState) (env : Env) (owner : OrgOwner)
    (d : OrganizationData) :
    (createNewOrganization st env owner d).2.slugBackfills = st.slugBackfills := by
  unfold createNewOrganization
  by_cases h : d.isPlatform = true <;> simp [h]

lemma finalize_backfills (st : DbState) (ob : OrganizationOnboarding) (org : Organization) :
    (finalizeAfterCreation st ob org).slugBackfills =
      if slugFalsy org.slug then st.slugBackfills ++ [(org.id, ob.slug)]
      else st.slugBackfills := by
  unfold finalizeAfterCreation
  split <;>
    simp_all [setSlug_backfills, createOrMoveTeams_backfills, inviteMembers_backfills]

/-- Concrete owner user. -/
def exOwner : OrgOwner where
  id := 42
  email := "owner@acme.test"
  username := some "owner"
  locale := none

/-- Environment in which the owner is found, `assertCanCreateOrg` reports
no slug conflict, and the ORM would assign id 8 to a new row. -/
def exEnv : Env where
  owner := some exOwner
  slugConflictType := none
  freshOrgId := 8

/-- Environment reporting the `teamUserIsMemberOfExists` slug conflict. -/
def exEnvDeferred : Env where
  owner := some exOwner
  slugConflictType := some "teamUserIsMemberOfExists"
  freshOrgId := 9

/-- An organization row that already exists in the store. -/
def exExistingOrg : Organization where
  id := 7
  name := "Acme"
  slug := some "acme"

/-- Database state already holding `exExistingOrg`, with its id recorded
on the onboarding row. -/
def exStWithOrg : DbState where
  orgs := [exExistingOrg]
  onboardingOrganizationId := some 7
  creationEmailsSent := []
  availabilitySeeded := []
  invitesSent := []
  teamOpsRun := []
  slugBackfills := []

/-- Empty database state. -/
def exEmptySt : DbState where
  orgs := []
  onboardingOrganizationId := none
  creationEmailsSent := []
  availabilitySeeded := []
  invitesSent := []
  teamOpsRun := []
  slugBackfills := []

/-- Onboarding row whose organization (id 7) already exists. -/
def exOnboardingLinked : OrganizationOnboarding where
  id := 1
  organizationId := some 7
  name := "Acme"
  slug := "acme"
  orgOwnerEmail := "owner@acme.test"
  seats := none
  pricePerSeat := none
  billingPeriod := none
  invitedMembers := []
  teams := []
  isPlatform := false
  logo := none
  bio := none

/-- Onboarding row flagged platform-internal, no organization yet. -/
def exPlatformOnboarding : OrganizationOnboarding where
  id := 2
  organizationId := none
  name := "Platform Org"
  slug := "platorg"
  orgOwnerEmail := "owner@acme.test"
  seats := none
  pricePerSeat := none
  billingPeriod := none
  invitedMembers := []
  teams := []
  isPlatform := true
  logo := none
  bio := none

/-- Fresh non-platform onboarding row, no organization yet. -/
def exOnboardingNew : OrganizationOnboarding where
  id := 3
  organizationId := none
  name := "NewCo"
  slug := "newco"
  orgOwnerEmail := "owner@acme.test"
  seats := none
  pricePerSeat := none
  billingPeriod := none
  invitedMembers := []
  teams := []
  isPlatform := false
  logo := none
  bio := none

/-- C1: the finalizer is idempotent with respect to organization
creation. When the lookup (by the stored organization id of the
onboarding when set, otherwise by slug) finds an existing organization, the run
returns that organization, creates no organization row and sends no
creation email; when the lookup misses, the run records the id of the freshly
created organization on the onboarding record, and the lookup of a
subsequent invocation (reading that recorded id) finds the organization,
so it short-circuits. -/
theorem onboarding_creation_idempotent :
    ∀ (st : DbState) (env : Env) (owner : OrgOwner) (ob : OrganizationOnboarding)
      (psid : String),
      env.owner = some owner →
      ((∀ org, lookupOrganization st.orgs (orgDataOfOnboarding ob psid) = some org →
          ∃ st', createOrganizationFromOnboarding st env ob psid = .ok ((org, owner), st') ∧
            st'.orgs.map (·.id) = st.orgs.map (·.id) ∧
            st'.creationEmailsSent = st.creationEmailsSent)
        ∧ (lookupOrganization st.orgs (orgDataOfOnboarding ob psid) = none →
            env.freshOrgId ≠ 0 →
            ∃ org st',
              createOrganizationFromOnboarding st env ob psid = .ok ((org, owner), st') ∧
                org.id = env.freshOrgId ∧
                st'.onboardingOrganizationId = some org.id ∧
                (lookupOrganization st'.orgs
                  (orgDataOfOnboarding
                    { ob with organizationId := some env.freshOrgId } psid)).isSome)) := by
  intro st env owner ob psid hOwner
  constructor
  · intro org hlk
    refine ⟨finalizeAfterCreation st ob org, ?_, ?_, ?_⟩
    · simp only [createOrganizationFromOnboarding, hOwner, createOrganizationWithOwner, hlk]
    · exact finalize_orgs_map_id st ob org
    · exact finalize_emails st ob org
  · intro hlk hfresh
    refine ⟨(createNewOrganization st env owner (orgDataOfOnboarding ob psid)).1,
      finalizeAfterCreation
        (createNewOrganization st env owner (orgDataOfOnboarding ob psid)).2 ob
        (createNewOrganization st env owner (orgDataOfOnboarding ob psid)).1,
      ?_, createNew_fst_id st env owner (orgDataOfOnboarding ob psid), ?_, ?_⟩
    · simp only [createOrganizationFromOnboarding, hOwner, createOrganizationWithOwner, hlk]
    · rw [finalize_onbId, createNew_snd_onbId, createNew_fst_id]
    · rw [lookupOrganization]
      simp only [orgDataOfOnboarding, if_neg hfresh]
      apply findById_isSome_of_mem_ids
      rw [finalize_orgs_map_id, createNew_snd_orgs_map_id]
      simp

/-- Witness for C1: with an onboarding row whose stored organization id 7
is already present in the store, the run returns that organization,
leaves the organization ids untouched and sends no creation email. -/
theorem onboarding_creation_idempotent_witness :
    exEnv.owner = some exOwner ∧
      lookupOrganization exStWithOrg.orgs (orgDataOfOnboarding exOnboardingLinked "sub_1") =
        some exExistingOrg ∧
      ∃ st',
        createOrganizationFromOnboarding exStWithOrg exEnv exOnboardingLinked "sub_1" =
            .ok ((exExistingOrg, exOwner), st') ∧
          st'.orgs.map (·.id) = exStWithOrg.orgs.map (·.id) ∧
          st'.creationEmailsSent = exStWithOrg.creationEmailsSent :=
  ⟨rfl, rfl,
    (onboarding_creation_idempotent exStWithOrg exEnv exOwner exOnboardingLinked "sub_1"
      rfl).1 exExistingOrg rfl⟩

/-- C6 failing input: a platform-internal onboarding record (`isPlatform`
true) creating a new organization. Because the finalizer hard-codes
`isPlatform: false` into the `orgData` it hands to
`createOrganizationWithOwner`, the creation email is sent even though the
record is platform-internal, contradicting the claim that the email is
skipped for platform organizations. -/
theorem platform_onboarding_still_sends_creation_email :
    exPlatformOnboarding.isPlatform = true ∧
      lookupOrganization exEmptySt.orgs (orgDataOfOnboarding exPlatformOnboarding "sub_2") =
        none ∧
      ∃ org st',
        createOrganizationFromOnboarding exEmptySt exEnv exPlatformOnboarding "sub_2" =
            .ok ((org, exOwner), st') ∧
          st'.creationEmailsSent = [exOwner.email] := by
  refine ⟨rfl, rfl, _, _, rfl, ?_⟩
  rfl

/-- C7: after member invitation and team creation/migration, the
finalizer backfills the organization slug from the onboarding record
exactly when the slug is still unset. A creation run with the
`teamUserIsMemberOfExists` conflict defers the slug (creates the row with
a null slug) and then backfills it; a creation run without that conflict
sets the slug at creation, and no backfill is issued. -/
theorem slug_backfilled_only_when_unset :
    ∀ (st : DbState) (env : Env) (owner : OrgOwner) (ob : OrganizationOnboarding)
      (psid : String),
      env.owner = some owner →
      lookupOrganization st.orgs (orgDataOfOnboarding ob psid) = none →
      ((env.slugConflictType = some "teamUserIsMemberOfExists" →
          ∃ org st',
            createOrganizationFromOnboarding st env ob psid = .ok ((org, owner), st') ∧
              org.slug = none ∧
              st'.slugBackfills = st.slugBackfills ++ [(org.id, ob.slug)])
        ∧ (env.slugConflictType ≠ some "teamUserIsMemberOfExists" → ob.slug ≠ "" →
            ∃ org st',
              createOrganizationFromOnboarding st env ob psid = .ok ((org, owner), st') ∧
                org.slug = some ob.slug ∧
                st'.slugBackfills = st.slugBackfills)) := by
  intro st env owner ob psid hOwner hlk
  constructor
  · intro hsct
    have hslug : (createNewOrganization st env owner (orgDataOfOnboarding ob psid)).1.slug =
        none := by
      simp [createNewOrganization, hsct]
    refine ⟨(createNewOrganization st env owner (orgDataOfOnboarding ob psid)).1,
      finalizeAfterCreation
        (createNewOrganization st env owner (orgDataOfOnboarding ob psid)).2 ob
        (createNewOrganization st env owner (orgDataOfOnboarding ob psid)).1,
      ?_, hslug, ?_⟩
    · simp only [createOrganizationFromOnboarding, hOwner, createOrganizationWithOwner, hlk]
    · rw [finalize_backfills, hslug]
      simp [slugFalsy, createNew_snd_backfills]
  · intro hsct hslug
    have hset : (createNewOrganization st env owner (orgDataOfOnboarding ob psid)).1.slug =
        some ob.slug := by
      simp [createNewOrganization, hsct, orgDataOfOnboarding]
    refine ⟨(createNewOrganization st env owner (orgDataOfOnboarding ob psid)).1,
      finalizeAfterCreation
        (createNewOrganization st env owner (orgDataOfOnboarding ob psid)).2 ob
        (createNewOrganization st env owner (orgDataOfOnboarding ob psid)).1,
      ?_, hset, ?_⟩
    · simp only [createOrganizationFromOnboarding, hOwner, createOrganizationWithOwner, hlk]
    · rw [finalize_backfills, hset]
      simp [slugFalsy, hslug, createNew_snd_backfills]

/-- Witness for C7: a fresh onboarding run under the
`teamUserIsMemberOfExists` conflict creates the organization with a null
slug and backfills it with the slug of the onboarding after the team step. -/
theorem slug_backfilled_only_when_unset_witness :
    exEnvDeferred.owner = some exOwner ∧
      lookupOrganization exEmptySt.orgs (orgDataOfOnboarding exOnboardingNew "sub_3") = none ∧
      exEnvDeferred.slugConflictType = some "teamUserIsMemberOfExists" ∧
      ∃ org st',
        createOrganizationFromOnboarding exEmptySt exEnvDeferred exOnboardingNew "sub_3" =
            .ok ((org, exOwner), st') ∧
          org.slug = none ∧
          st'.slugBackfills = exEmptySt.slugBackfills ++ [(org.id, exOnboardingNew.slug)] :=
  ⟨rfl, rfl, rfl,
    (slug_backfilled_only_when_unset exEmptySt exEnvDeferred exOwner exOnboardingNew "sub_3"
      rfl rfl).1 rfl⟩

end Onboarding

namespace SeatCancellation

/-- A webhook subscriber row as selected for the cancellation payload
fan-out. -/
structure Webhook where
  id : String
  subscriberUrl : String
  payloadTemplate : Option String
  appId : Option String
  secret : Option String
  deriving DecidableEq, Repr

/-- Record of one webhook delivery attempt: the subscriber URL and
whether the delivery resolved (a rejected delivery is caught and logged,
never re-raised). -/
structure DeliveryAttempt where
  subscriberUrl : String
  delivered : Bool
  deriving DecidableEq, Repr

/-- Semantics of `Promise.all` over already-started unit promises: resolves when all
resolve, rejects with the first rejection. -/
def promiseAll (results : List (Except String Unit)) : Except String Unit :=
  results.foldr
    (fun r acc =>
      match r with
      | .error e => .error e
      | .ok _ => acc)
    (.ok ())

/-- One webhook delivery through `sendPayload(...).catch(e => logger.error(...))`:
the per-subscriber catch turns a rejection into a resolved, logged
failure. -/
def sendPayloadCaught (send : Webhook → Except String Unit) (w : Webhook) :
    DeliveryAttempt :=
  match send w with
  | .ok _ => { subscriberUrl := w.subscriberUrl, delivered := true }
  | .error _ => { subscriberUrl := w.subscriberUrl, delivered := false }

/-- The side-effect tail of `cancelAttendeeSeat` after the seat and
attendee rows have been deleted: the external calendar/video updates are
awaited together inside `try { await Promise.all(...) } catch (error) {}`
(the empty catch swallows any failure), then the cancellation payload is
fanned out to every subscriber with a per-subscriber catch, and the
handler returns `{ success: true }`. An uncaught failure at either step
would surface as `.error`. -/
def cancelAttendeeSeatSideEffects (integrationResults : List (Except String Unit))
    (send : Webhook → Except String Unit) (webhooks : List Webhook) :
    Except String (List DeliveryAttempt × Bool) :=
  match promiseAll integrationResults with
  | .error _ => .ok (webhooks.map (sendPayloadCaught send), true)
  | .ok _ => .ok (webhooks.map (sendPayloadCaught send), true)

lemma sendPayloadCaught_url (send : Webhook → Except String Unit) (w : Webhook) :
    (sendPayloadCaught send w).subscriberUrl = w.subscriberUrl := by
  unfold sendPayloadCaught
  cases send w <;> rfl

/-- C8: during seat cancellation, failures of the awaited external
calendar/video updates are swallowed and failures of individual webhook
deliveries are caught per subscriber: for every combination of
integration results and per-subscriber delivery outcomes, the handler
still succeeds, and a delivery is attempted for every subscriber
regardless of the failures of the other subscribers. -/
theorem seat_cancellation_swallows_side_effect_failures :
    ∀ (integrationResults : List (Except String Unit))
      (send : Webhook → Except String Unit) (webhooks : List Webhook),
      cancelAttendeeSeatSideEffects integrationResults send webhooks =
          .ok (webhooks.map (sendPayloadCaught send), true) ∧
        (webhooks.map (sendPayloadCaught send)).map (·.subscriberUrl) =
          webhooks.map (·.subscriberUrl) := by
  intro integrationResults send webhooks
  constructor
  · unfold cancelAttendeeSeatSideEffects
    cases promiseAll integrationResults <;> rfl
  · simp [List.map_map, Function.comp, sendPayloadCaught_url]

end SeatCancellation
